import Mathlib

/-!
Shallow embedding of the retrieval-and-citation pipeline of the repository
(`backend/routers/chat.py`, `backend/services/matrix_retriever.py`,
`backend/services/document_retriever.py`, `backend/services/visualization.py`)
together with proofs about the claims of its specification.

Modelling conventions:
* Python strings are modelled as `String` / `List Char`; only the ASCII
  whitespace classes are modelled for `\s`, `str.strip` and `str.lower`
  (all string literals appearing in the code are ASCII apart from the
  placeholder "—", which no case-mapping or whitespace class touches).
* Python floats are modelled as `ℚ`; every numeric value appearing in a
  claim is exactly representable, and all comparisons performed by the
  code are between values computed from the same inputs.
* Python dicts keyed by strings are modelled as association lists with
  the insertion order of the source (later bindings shadow earlier ones).
* Fallible constructions (`float(...)`, pydantic validation) are modelled
  with `Option`.
-/

namespace Py

/-- ASCII part of Python's `\s` class / `str.strip` default characters. -/
def isSpace (c : Char) : Bool :=
  c == ' ' || c == '\t' || c == '\n' || c == '\r' || c == '\x0b' || c == '\x0c'

/-- Model of `str.strip()` on a character list. -/
def stripL (l : List Char) : List Char :=
  ((l.dropWhile isSpace).reverse.dropWhile isSpace).reverse

/-- Model of `str.strip()`. -/
def strip (s : String) : String := ⟨stripL s.data⟩

/-- Model of `str.lower()` (ASCII). -/
def lowerL (l : List Char) : List Char := l.map Char.toLower

def lower (s : String) : String := ⟨lowerL s.data⟩

/-- substring containment on character lists. -/
def isSubL : List Char → List Char → Bool
  | needle, [] => needle.isEmpty
  | needle, c :: t => needle.isPrefixOf (c :: t) || isSubL needle t

/-- Model of `needle in hay` for strings (substring containment). -/
def containsSub (hay needle : String) : Bool := isSubL needle.data hay.data

/-- remove every occurrence of a character (`str.replace(c, '')`). -/
def removeAll (c : Char) (l : List Char) : List Char := l.filter (fun x => x != c)

/-- numeric value of a digit list. -/
def digitsVal (l : List Char) : ℕ := l.foldl (fun a c => a * 10 + (c.toNat - 48)) 0

/-- Python `float(s)` restricted to the character set reachable in this code
(`[+-]? digits [. digits]` with at least one digit); returns `none` where
`float` raises `ValueError`. -/
def pyFloat (l : List Char) : Option ℚ :=
  let (sign, l1) : ℚ × List Char :=
    match l with
    | '-' :: t => (-1, t)
    | '+' :: t => (1, t)
    | _ => (1, l)
  let d1 := l1.takeWhile Char.isDigit
  let r1 := l1.drop d1.length
  match r1 with
  | [] => if d1.isEmpty then none else some (sign * digitsVal d1)
  | '.' :: r2 =>
    let d2 := r2.takeWhile Char.isDigit
    if (r2.drop d2.length).isEmpty then
      if d1.isEmpty && d2.isEmpty then none
      else some (sign * ((digitsVal d1 : ℚ) + (digitsVal d2 : ℚ) / (10 : ℚ) ^ d2.length))
    else none
  | _ => none

/-- first-seen-order deduplication (Python `unique_refs` loop and `set`
membership-based dedup where order is irrelevant). -/
def firstDedupAux (seen : List String) : List String → List String
  | [] => []
  | x :: xs =>
    if x ∈ seen then firstDedupAux seen xs
    else x :: firstDedupAux (x :: seen) xs

def firstDedup (l : List String) : List String := firstDedupAux [] l

/-- Python `str.split()` (split on whitespace runs, dropping empties). -/
def splitWsAux : List Char → List Char → List String
  | cur, [] => if cur.isEmpty then [] else [⟨cur.reverse⟩]
  | cur, c :: cs =>
    if isSpace c then
      if cur.isEmpty then splitWsAux [] cs
      else ⟨cur.reverse⟩ :: splitWsAux [] cs
    else splitWsAux (c :: cur) cs

def splitWs (s : String) : List String := splitWsAux [] s.data

end Py

namespace Visualization

/-! ## `VisualizationService.parse_numeric_value`
(`backend/services/visualization.py`) -/

/-- Model of `PERCENTAGE_PATTERN = r'^[\d,]+\.?\d*\s*%$'` (`re.match`, anchored). -/
def matchPercentage (l : List Char) : Bool :=
  let t1 := l.takeWhile (fun c => c.isDigit || c == ',')
  if t1.isEmpty then false
  else
    let r1 := l.drop t1.length
    let r2 := match r1 with
      | '.' :: t => t
      | _ => r1
    let r3 := r2.dropWhile Char.isDigit
    let r4 := r3.dropWhile Py.isSpace
    r4 == ['%']

/-- is the character one of `[kmb]` under `re.IGNORECASE`. -/
def isKMB (c : Char) : Bool :=
  c == 'k' || c == 'm' || c == 'b' || c == 'K' || c == 'M' || c == 'B'

/-- Model of `r'^\$[\d,]+\.?\d*[kmb]?$'` (IGNORECASE). -/
def matchCurrency1 (l : List Char) : Bool :=
  match l with
  | '$' :: rest =>
    let t1 := rest.takeWhile (fun c => c.isDigit || c == ',')
    if t1.isEmpty then false
    else
      let r1 := rest.drop t1.length
      let r2 := match r1 with
        | '.' :: t => t
        | _ => r1
      let r3 := r2.dropWhile Char.isDigit
      match r3 with
      | [] => true
      | [c] => isKMB c
      | _ => false
  | _ => false

/-- Model of `r'^[\d,]+\.?\d*[kmb]?\s*\$'` (IGNORECASE, unanchored at the end:
`re.match` only requires a prefix match). -/
def matchCurrency2 (l : List Char) : Bool :=
  let t1 := l.takeWhile (fun c => c.isDigit || c == ',')
  if t1.isEmpty then false
  else
    let r1 := l.drop t1.length
    let r2 := match r1 with
      | '.' :: t => t
      | _ => r1
    let r3 := r2.dropWhile Char.isDigit
    let r4 := match r3 with
      | c :: t => if isKMB c then t else r3
      | [] => []
    let r5 := r4.dropWhile Py.isSpace
    match r5 with
    | '$' :: _ => true
    | _ => false

/-- Model of `r'^USD\s*[\d,]+\.?\d*'` / `r'^EUR\s*[\d,]+\.?\d*'` (IGNORECASE,
prefix match; the tail `\.?\d*` always succeeds once `[\d,]+` has). -/
def matchCurrencyWord (word : List Char) (l : List Char) : Bool :=
  let pre := l.take 3
  if Py.lowerL pre == word && l.length ≥ 3 then
    let r1 := (l.drop 3).dropWhile Py.isSpace
    let t1 := r1.takeWhile (fun c => c.isDigit || c == ',')
    !t1.isEmpty
  else false

/-- Model of `MULTIPLE_PATTERN = r'^[\d,]+\.?\d*\s*x$'` (IGNORECASE). -/
def matchMultiple (l : List Char) : Bool :=
  let t1 := l.takeWhile (fun c => c.isDigit || c == ',')
  if t1.isEmpty then false
  else
    let r1 := l.drop t1.length
    let r2 := match r1 with
      | '.' :: t => t
      | _ => r1
    let r3 := r2.dropWhile Char.isDigit
    let r4 := r3.dropWhile Py.isSpace
    r4 == ['x'] || r4 == ['X']

/-- Model of `VisualizationService.parse_numeric_value`. -/
def parse_numeric_value (value_str : String) : Option (ℚ × String) :=
  if value_str == "" || value_str == "—" || value_str == "Fault" then none
  else
    let cleaned := Py.stripL value_str.data
    if matchPercentage cleaned then
      -- cleaned.replace('%', '').replace(',', '').strip()
      (Py.pyFloat (Py.stripL (Py.removeAll ',' (Py.removeAll '%' cleaned)))).map
        (fun v => (v, "percentage"))
    else if matchCurrency1 cleaned || matchCurrency2 cleaned ||
        matchCurrencyWord "usd".data cleaned || matchCurrencyWord "eur".data cleaned then
      -- re.sub(r'[^\d.,]', '', cleaned) then .replace(',', '')
      let numStr := Py.removeAll ',' (cleaned.filter (fun c => c.isDigit || c == '.' || c == ','))
      let low := Py.lowerL cleaned
      let multiplier : ℚ :=
        if low.contains 'k' then 1000
        else if low.contains 'm' then 1000000
        else if low.contains 'b' then 1000000000
        else 1
      (Py.pyFloat numStr).map (fun v => (v * multiplier, "currency"))
    else if matchMultiple cleaned then
      (Py.pyFloat (Py.stripL (Py.removeAll ',' (Py.removeAll 'x' cleaned)))).map
        (fun v => (v, "multiple"))
    else
      let numStr := Py.removeAll ','
        (cleaned.filter (fun c => c.isDigit || c == '.' || c == ',' || c == '-' || c == '+'))
      (Py.pyFloat numStr).map (fun v => (v, "numeric"))

end Visualization

namespace MatrixRetriever

/-! ## `MatrixRetriever` (`backend/services/matrix_retriever.py`) and the
pydantic models it consumes (`backend/models/matrix.py`,
`backend/models/document.py`). -/

structure Metric where
  id : String
  label : String
  description : Option String := none
  type : Option String := none
  deriving DecidableEq, Repr

structure CellData where
  value : Option String := none
  is_loading : Bool := false
  confidence : Option String := none
  reasoning : Option String := none
  sources : Option (List String) := none
  error : Option String := none
  deriving DecidableEq, Repr

structure Document where
  id : String
  name : String
  type : String
  content : String
  size : ℤ
  blob_url : Option String := none
  deriving DecidableEq, Repr

structure CellMatch where
  doc_id : String
  doc_name : String
  metric_id : String
  metric_label : String
  cell : CellData
  relevance_score : ℚ := 0
  deriving DecidableEq, Repr

/-- Model of `self.semantic_mappings` (insertion order of the constructor). -/
def semantic_mappings : List (String × List String) :=
  [("revenue", ["revenue", "arr", "mrr", "sales", "income", "earnings"]),
   ("margin", ["margin", "profit", "gross margin", "net margin", "profitability"]),
   ("growth", ["growth", "delta", "change", "increase", "yoy"]),
   ("leader", ["leadership", "ceo", "executive", "management", "founder"]),
   ("risk", ["risk", "threat", "challenge", "exposure"]),
   ("churn", ["churn", "retention", "attrition", "customer loss"]),
   ("valuation", ["valuation", "pe", "price", "multiple", "cap"]),
   ("debt", ["debt", "leverage", "loan", "liability"]),
   ("cash", ["cash", "fcf", "free cash flow", "liquidity"]),
   ("employee", ["employee", "headcount", "staff", "workforce"])]

/-- Model of `MatrixRetriever._normalize_query`.  Python returns
`list(set(matched_concepts + words))` whose order is unspecified; every
consumer combines the terms by a commutative fold over `ℚ`, so a
first-seen-order deduplication is an order-faithful model of the set. -/
def _normalize_query (query : String) : List String :=
  let query_lower := Py.lower query
  let matched_concepts :=
    (semantic_mappings.filter
      (fun ck => ck.2.any (fun kw => Py.containsSub query_lower kw))).map (·.1)
  let words := (Py.splitWs query_lower).filter (fun w => w.length > 3)
  Py.firstDedup (matched_concepts ++ words)

/-- Model of `MatrixRetriever._score_metric_relevance`. -/
def _score_metric_relevance (metric_label : String) (query_terms : List String) : ℚ :=
  let label_lower := Py.lower metric_label
  let score := query_terms.foldl
    (fun s term =>
      let s := if Py.containsSub label_lower term then s + 1 else s
      semantic_mappings.foldl
        (fun s2 ck =>
          if term == ck.1 && ck.2.any (fun kw => Py.containsSub label_lower kw)
          then s2 + 8 / 10 else s2)
        s)
    0
  min score 1

/-- prefix of `key` before the first occurrence of `sep`
(`key.split(sep)[0]`, `sep` non-empty). -/
def splitFirstL : List Char → List Char → List Char
  | [], _ => []
  | c :: t, sep =>
    if sep.isPrefixOf (c :: t) then []
    else c :: splitFirstL t sep

def splitFirst (key sep : String) : String := ⟨splitFirstL key.data sep.data⟩

/-- Model of `doc_lookup = {doc.id: doc for doc in documents}` then `.get doc_id`
(later bindings shadow earlier ones). -/
def docLookup (documents : List Document) (doc_id : String) : Option Document :=
  (documents.filter (fun d => d.id == doc_id)).getLast?

/-- stable descending insertion (insert after existing entries with a
score at least as large), so folding it over the match list reproduces
Python's stable `list.sort(key=..., reverse=True)`. -/
def insertDesc (m : CellMatch) : List CellMatch → List CellMatch
  | [] => [m]
  | x :: xs =>
    if m.relevance_score ≤ x.relevance_score then x :: insertDesc m xs
    else m :: x :: xs

def sortDesc (l : List CellMatch) : List CellMatch :=
  l.foldl (fun acc m => insertDesc m acc) []

/-- the `cell.value and cell.value != "—"` test (`None` and `""` are falsy). -/
def cellValueOk (v : Option String) : Bool :=
  match v with
  | none => false
  | some s => s != "" && s != "—"

/-- inner cell scan of `MatrixRetriever.retrieve` for one metric: the
`matches.append(...)` loop emits, in dict order, one match per cell whose
key contains `"-{metric.id}"`, whose value is truthy and not `"—"`, and
whose extracted document id resolves. -/
def cellsForMetric (documents : List Document) (metric : Metric) (relevance : ℚ) :
    List (String × CellData) → List CellMatch
  | [] => []
  | (cell_key, cell) :: rest =>
    (if Py.containsSub cell_key ("-" ++ metric.id) && cellValueOk cell.value then
      match docLookup documents (splitFirst cell_key ("-" ++ metric.id)) with
      | some doc =>
        [{ doc_id := splitFirst cell_key ("-" ++ metric.id), doc_name := doc.name,
           metric_id := metric.id, metric_label := metric.label, cell := cell,
           relevance_score := relevance }]
      | none => []
    else []) ++ cellsForMetric documents metric relevance rest

/-- the metric loop of `MatrixRetriever.retrieve` (before sorting). -/
def collectMatches (cells : List (String × CellData)) (documents : List Document)
    (min_relevance : ℚ) (query_terms : List String) : List Metric → List CellMatch
  | [] => []
  | metric :: rest =>
    (if min_relevance ≤ _score_metric_relevance metric.label query_terms then
      cellsForMetric documents metric
        (_score_metric_relevance metric.label query_terms) cells
    else []) ++ collectMatches cells documents min_relevance query_terms rest

/-- Model of `MatrixRetriever.retrieve`. -/
def retrieve (query : String) (cells : List (String × CellData))
    (metrics : List Metric) (documents : List Document)
    (min_relevance : ℚ := 3 / 10) : List CellMatch :=
  sortDesc (collectMatches cells documents min_relevance (_normalize_query query) metrics)

/-- Model of `MatrixRetriever.has_sufficient_data`. -/
def has_sufficient_data (ms : List CellMatch) (threshold : ℕ := 2) : Bool :=
  let high_confidence := ms.filter (fun m => m.cell.confidence == some "High")
  high_confidence.length ≥ threshold || ms.length ≥ threshold * 2

end MatrixRetriever

namespace DocumentRetriever

/-! ## `DocumentRetriever` (`backend/services/document_retriever.py`),
instantiated as in `chat.py` with the constructor defaults. -/

def chunk_size : ℕ := 2000

/-- configured but never applied by `_chunk_document`. -/
def chunk_overlap : ℕ := 200

structure DocChunk where
  doc_id : String
  doc_name : String
  content : String
  «section» : Option String := none
  page : Option ℤ := none
  relevance_score : ℚ := 0
  deriving DecidableEq, Repr

/-- match of `re.split`'s separator `r'\n\s*\n'` at the head of the list:
a newline followed by the longest whitespace run that still ends with a
newline (the greedy `\s*` backtracks to the last newline of the run).
Returns the remainder after the separator. -/
def trySep : List Char → Option (List Char)
  | [] => none
  | c :: t =>
    if c == '\n' then
      let run := t.takeWhile Py.isSpace
      match run.reverse.findIdx? (fun x => x == '\n') with
      | some j => some (t.drop (run.length - j))
      | none => none
    else none

/-- Model of `re.split(r'\n\s*\n', content)` (fuelled scanner; every separator
consumes at least one character, so `fuel = length` suffices). -/
def splitParasF (fuel : ℕ) (cur : List Char) (l : List Char) : List (List Char) :=
  match fuel with
  | 0 => [cur.reverse ++ l]
  | fuel + 1 =>
    match l with
    | [] => [cur.reverse]
    | c :: cs =>
      match trySep (c :: cs) with
      | some rest => cur.reverse :: splitParasF fuel [] rest
      | none => splitParasF fuel (c :: cur) cs

def splitParas (content : List Char) : List (List Char) :=
  splitParasF (content.length + 1) [] content

def isUpper (c : Char) : Bool := 'A' ≤ c && c ≤ 'Z'

/-- Model of `re.match(r'^#+\s*(.+)$|^([A-Z][A-Z\s]+)$', para.strip())`, returning
`group(1) or group(2)`.  After `strip` the string has no trailing
whitespace, so `$` can only match at the very end; `.` does not match a
newline, which makes both alternatives deterministic. -/
def headerLabel (para : List Char) : Option (List Char) :=
  let s := Py.stripL para
  match s with
  | [] => none
  | c :: rest =>
    if c == '#' then
      -- branch `^#+\s*(.+)$`
      let r := s.dropWhile (fun x => x == '#')
      let rem := r.dropWhile Py.isSpace
      if !rem.isEmpty && rem.all (fun x => x != '\n') then some rem else none
    else
      -- branch `^([A-Z][A-Z\s]+)$`
      if isUpper c && !rest.isEmpty &&
          rest.all (fun x => isUpper x || Py.isSpace x) then some s
      else none

/-- Model of `current_section` update at the top of the chunking loop. -/
def updSection (sec : Option (List Char)) (para : List Char) : Option (List Char) :=
  match headerLabel para with
  | some g => some g
  | none => sec

/-- buffer extension `current_chunk += "\n\n" + para if current_chunk else para`. -/
def extendBuf (cur para : List Char) : List Char :=
  if cur.isEmpty then para else cur ++ '\n' :: '\n' :: para

/-- the paragraph loop of `_chunk_document` (including the final flush),
returning `(content, section)` pairs. -/
def chunkAux : List (List Char) → List Char → Option (List Char) →
    List (List Char × Option (List Char))
  | [], cur, sec => if cur.isEmpty then [] else [(Py.stripL cur, sec)]
  | para :: rest, cur, sec =>
    let sec2 := updSection sec para
    if cur.length + para.length > chunk_size then
      (if cur.isEmpty then [] else [(Py.stripL cur, sec2)]) ++ chunkAux rest para sec2
    else
      chunkAux rest (extendBuf cur para) sec2

/-- Model of `DocumentRetriever._chunk_document`. -/
def _chunk_document (doc : MatrixRetriever.Document) : List DocChunk :=
  (chunkAux (splitParas doc.content.data) [] none).map
    (fun cs => { doc_id := doc.id, doc_name := doc.name,
                 content := ⟨cs.1⟩, «section» := cs.2.map (fun l => ⟨l⟩) })

/-- the buffer as the code's own join of the paragraphs accumulated since
the last flush. -/
def joinBuf (paras : List (List Char)) : List Char :=
  paras.foldl extendBuf []

end DocumentRetriever

namespace Chat

/-! ## citation enrichment / normalization (`backend/routers/chat.py`)
and the citation models (`backend/models/chat.py`). -/

/-- a raw citation dict coming back from the LLM: the fields the pipeline
reads, each `none` when absent. -/
structure RawCitation where
  type : Option String := none
  index : Option ℤ := none
  doc_id : Option String := none
  doc_name : Option String := none
  metric_id : Option String := none
  metric_label : Option String := none
  value : Option String := none
  «section» : Option String := none
  page : Option ℤ := none
  excerpt : Option String := none
  deriving DecidableEq, Repr

/-- Model of `CellCitation` / `DocumentCitation` (`backend/models/chat.py`). -/
inductive Citation where
  | cell (index : ℕ) (doc_id doc_name metric_id metric_label value : String)
  | document (index : ℕ) (doc_id doc_name : String)
      («section» : Option String) (page : Option ℤ) (excerpt : String)
  deriving DecidableEq, Repr

def Citation.index : Citation → ℕ
  | .cell i _ _ _ _ _ => i
  | .document i _ _ _ _ _ => i

/-- positional fallback index `min(idx - 1, len - 1) if idx > 0 else 0`
into a 1-based context map of size `n`. -/
def fallbackPos (idx : ℤ) (n : ℕ) : ℕ :=
  if idx > 0 then min (idx - 1).toNat (n - 1) else 0

/-- Model of `_enrich_citations`, body of the loop for one citation.  `cell_map`
and `doc_map` are the 1-based positional maps, given by their value lists
(`list(cell_map.values())` in enumeration order). -/
def enrichOne (cell_map : List MatrixRetriever.CellMatch)
    (doc_map : List DocumentRetriever.DocChunk) (c : RawCitation) : RawCitation :=
  if c.type == some "cell" then
    let idx : ℤ := c.index.getD 0
    let doc_id := c.doc_id.getD ""
    if doc_id == "" || doc_id == "..." || doc_id.length < 5 then
      if 1 ≤ idx ∧ idx ≤ cell_map.length then
        match cell_map.get? (idx - 1).toNat with
        | some m =>
          { c with doc_id := some m.doc_id, doc_name := some m.doc_name,
                   metric_id := some m.metric_id, metric_label := some m.metric_label,
                   value := some (m.cell.value.getD "") }
        | none => c
      else if cell_map.length > 0 then
        match cell_map.get? (fallbackPos idx cell_map.length) with
        | some m =>
          { c with doc_id := some m.doc_id, doc_name := some m.doc_name,
                   metric_id := some m.metric_id, metric_label := some m.metric_label,
                   value := some (m.cell.value.getD "") }
        | none => c
      else c
    else c
  else if c.type == some "document" then
    let idx : ℤ := c.index.getD 0
    let doc_id := c.doc_id.getD ""
    if doc_id == "" || doc_id == "..." || doc_id.length < 5 then
      if 1 ≤ idx ∧ idx ≤ doc_map.length then
        match doc_map.get? (idx - 1).toNat with
        | some ch =>
          { c with doc_id := some ch.doc_id, doc_name := some ch.doc_name,
                   «section» := ch.«section», excerpt := some ch.content }
        | none => c
      else if doc_map.length > 0 then
        match doc_map.get? (fallbackPos idx doc_map.length) with
        | some ch =>
          { c with doc_id := some ch.doc_id, doc_name := some ch.doc_name,
                   «section» := ch.«section», excerpt := some ch.content }
        | none => c
      else c
    else c
  else c

/-- Model of `_enrich_citations`. -/
def _enrich_citations (raw_citations : List RawCitation)
    (cell_map : List MatrixRetriever.CellMatch)
    (doc_map : List DocumentRetriever.DocChunk) : List RawCitation :=
  raw_citations.map (enrichOne cell_map doc_map)

/-! ### `_clean_citation_leakage`: the three `re.sub` passes, each as a
deterministic leftmost scanner (the patterns involved allow no
backtracking beyond what the scanners encode, see each doc comment). -/

/-- generic leftmost non-overlapping `re.sub` scanner: `try1` returns
`(replacement, rest)` on a match at the head (every match consumes at
least one character, so `fuel = length` suffices on concrete inputs). -/
def subF (try1 : List Char → Option (List Char × List Char)) :
    ℕ → List Char → List Char
  | 0, l => l
  | _ + 1, [] => []
  | fuel + 1, c :: cs =>
    match try1 (c :: cs) with
    | some (rep, rest) => rep ++ subF try1 fuel rest
    | none => c :: subF try1 fuel cs

def runSub (try1 : List Char → Option (List Char × List Char)) (l : List Char) :
    List Char :=
  subF try1 l.length l

/-- after `[`, consume `Doc` or `Cell`. -/
def dropKind : List Char → Option (List Char)
  | 'D' :: 'o' :: 'c' :: t => some t
  | 'C' :: 'e' :: 'l' :: 'l' :: t => some t
  | _ => none

/-- Model of `\s*(\d+)\]` part shared by the marker patterns: returns the digit
group and the rest after `]`. -/
def digitsBracket (l : List Char) : Option (List Char × List Char) :=
  let l1 := l.dropWhile Py.isSpace
  let ds := l1.takeWhile Char.isDigit
  if ds.isEmpty then none
  else
    match l1.drop ds.length with
    | ']' :: t => some (ds, t)
    | _ => none

/-- Model of `\s*\([^)]*\)` tail of pattern 1: whitespace, an open paren, anything
up to the next `)`. -/
def parenTail (l : List Char) : Option (List Char) :=
  let l1 := l.dropWhile Py.isSpace
  match l1 with
  | '(' :: t =>
    let inner := t.takeWhile (fun c => c != ')')
    match t.drop inner.length with
    | ')' :: rest => some rest
    | _ => none
  | _ => none

/-- pattern 1: `r'\[(Doc|Cell)\s*(\d+)\]\s*\([^)]*\)'` → `[\2]`. -/
def tryMarkerParen : List Char → Option (List Char × List Char)
  | '[' :: t => do
    let t1 ← dropKind t
    let (ds, t2) ← digitsBracket t1
    let rest ← parenTail t2
    pure ('[' :: ds ++ [']'], rest)
  | _ => none

/-- pattern 2: `r'\[(Doc|Cell)\s*(\d+)\]'` → `[\2]`. -/
def tryMarker : List Char → Option (List Char × List Char)
  | '[' :: t => do
    let t1 ← dropKind t
    let (ds, t2) ← digitsBracket t1
    pure ('[' :: ds ++ [']'], t2)
  | _ => none

/-- pattern 3: `r'\s*\(doc_id=[^)]*\)'` → `''`.  The whitespace run and
the literal `(doc_id=` leave no backtracking choices; an empty-whitespace
match at a later position is subsumed by the leftmost scan. -/
def tryDocIdParen (l : List Char) : Option (List Char × List Char) :=
  let ws := l.takeWhile Py.isSpace
  match l.drop ws.length with
  | '(' :: 'd' :: 'o' :: 'c' :: '_' :: 'i' :: 'd' :: '=' :: t =>
    let inner := t.takeWhile (fun c => c != ')')
    match t.drop inner.length with
    | ')' :: rest => some ([], rest)
    | _ => none
  | _ => none

/-- Model of `_clean_citation_leakage`. -/
def _clean_citation_leakage (content : String) : String :=
  ⟨runSub tryDocIdParen (runSub tryMarker (runSub tryMarkerParen content.data))⟩

/-! ### `_normalize_citations` and `_parse_citations`. -/

/-- Model of `re.findall(r'\[(\d+)\]', content)`: captured digit groups of the
non-overlapping leftmost matches, in order. -/
def findRefsF : ℕ → List Char → List String
  | 0, _ => []
  | _ + 1, [] => []
  | fuel + 1, c :: cs =>
    if c == '[' then
      let ds := cs.takeWhile Char.isDigit
      if !ds.isEmpty then
        match cs.drop ds.length with
        | ']' :: rest => ⟨ds⟩ :: findRefsF fuel rest
        | _ => findRefsF fuel cs
      else findRefsF fuel cs
    else findRefsF fuel cs

def findRefs (content : String) : List String :=
  findRefsF content.data.length content.data

/-- shared typed-citation construction (`CellCitation(...)` /
`DocumentCitation(...)` with the dict-`get` defaults used at both call
sites); `none` for an unrecognized `type`. -/
def buildCitation (c : RawCitation) (i : ℕ) : Option Citation :=
  if c.type == some "cell" then
    some (.cell i (c.doc_id.getD "") (c.doc_name.getD "Unknown")
      (c.metric_id.getD "") (c.metric_label.getD "Unknown") (c.value.getD ""))
  else if c.type == some "document" then
    some (.document i (c.doc_id.getD "") (c.doc_name.getD "Unknown")
      c.«section» c.page (c.excerpt.getD ""))
  else none

/-- Model of `_parse_citations` (sequential indices; `enumerate` advances even
when a citation is skipped). -/
def parseAux : List RawCitation → ℕ → List Citation
  | [], _ => []
  | c :: cs, i =>
    match buildCitation c i with
    | some cit => cit :: parseAux cs (i + 1)
    | none => parseAux cs (i + 1)

def _parse_citations (raw_citations : List RawCitation) : List Citation :=
  parseAux raw_citations 1

/-- Model of `citation_by_index.get(old_ref)`: the last citation whose own `index`
field prints as `old_ref` (later dict writes shadow earlier ones). -/
def byIndex (raw_citations : List RawCitation) (old_ref : String) :
    Option RawCitation :=
  (raw_citations.filter
    (fun c => match c.index with
      | some i => toString i == old_ref
      | none => false)).getLast?

/-- the renumbering loop of `_normalize_citations` over the distinct
references (first conjunct: the `old_to_new` map, second: the normalized
citations).  `k` is the 1-based `new_index` of `enumerate`; note that a
reference that resolves to no citation is skipped while `k` still
advances, and that `old_to_new` is extended even when the typed
construction fails. -/
def normLoop (raw_citations : List RawCitation) :
    List String → ℕ → List (String × ℕ) × List Citation
  | [], _ => ([], [])
  | old_ref :: refs, k =>
    let citation_data : Option RawCitation :=
      match byIndex raw_citations old_ref with
      | some c => some c
      | none =>
        if raw_citations.length ≥ k then raw_citations.get? (k - 1) else none
    match citation_data with
    | none => normLoop raw_citations refs (k + 1)
    | some c =>
      let rest := normLoop raw_citations refs (k + 1)
      ((old_ref, k) :: rest.1,
       (match buildCitation c k with
        | some cit => [cit]
        | none => []) ++ rest.2)

/-- Model of `re.sub(ref_pattern, replace_ref, content)`: rewrite each `[n]` whose
old reference has a mapping, leave the others as they are. -/
def tryRewriteRef (old_to_new : List (String × ℕ)) :
    List Char → Option (List Char × List Char)
  | '[' :: cs =>
    let ds := cs.takeWhile Char.isDigit
    if ds.isEmpty then none
    else
      match cs.drop ds.length with
      | ']' :: rest =>
        match old_to_new.lookup (⟨ds⟩ : String) with
        | some n => some ('[' :: (toString n).data ++ [']'], rest)
        | none => some ('[' :: ds ++ [']'], rest)
      | _ => none
  | _ => none

/-- Model of `_normalize_citations`. -/
def _normalize_citations (content : String) (raw_citations : List RawCitation) :
    String × List Citation :=
  let content2 := _clean_citation_leakage content
  let unique_refs := Py.firstDedup (findRefs content2)
  if unique_refs.isEmpty || raw_citations.isEmpty then
    (content2, _parse_citations raw_citations)
  else
    let res := normLoop raw_citations unique_refs 1
    (⟨runSub (tryRewriteRef res.1) content2.data⟩, res.2)

end Chat

namespace Visualization

/-! ## column analysis (`VisualizationService.analyze_column_async` and its
rule-based fallback).  The LLM call `generate_chart_spec_llm` is an external
effect; its outcome is passed in as `Option LLMChartSpec` (`none` models
timeout / validation failure / provider error, in which case the code falls
back to the rules). -/

def TIME_KEYWORDS : List String :=
  ["growth", "yoy", "y/y", "qoq", "q/q", "mom", "m/m",
   "annual", "quarterly", "monthly", "yearly",
   "trend", "change", "delta", "increase", "decrease",
   "over time", "historical", "forecast", "projection"]

def COMPARISON_KEYWORDS : List String :=
  ["vs", "versus", "compared", "relative", "benchmark",
   "peer", "competitor", "industry", "average", "median"]

def COMPOSITION_KEYWORDS : List String :=
  ["breakdown", "composition", "mix", "allocation",
   "segment", "share", "portion", "split"]

/-- ascending `sorted(values)` (equal rationals are indistinguishable, so
any correct ascending sort agrees with Python's stable sort). -/
def insertAsc (x : ℚ) : List ℚ → List ℚ
  | [] => [x]
  | y :: ys => if x < y then x :: y :: ys else y :: insertAsc x ys

def sortAsc (l : List ℚ) : List ℚ := l.foldl (fun acc x => insertAsc x acc) []

def listMin : List ℚ → ℚ
  | [] => 0
  | x :: xs => xs.foldl min x

def listMax : List ℚ → ℚ
  | [] => 0
  | x :: xs => xs.foldl max x

def mean (values : List ℚ) : ℚ := values.sum / values.length

/-- Model of `statistics.median`. -/
def median (values : List ℚ) : ℚ :=
  let s := sortAsc values
  let n := s.length
  if n % 2 = 1 then s.getD (n / 2) 0
  else (s.getD (n / 2 - 1) 0 + s.getD (n / 2) 0) / 2

/-- square of `statistics.stdev` (the sample variance, denominator
`n - 1`); rational, unlike the stdev itself. -/
def sampleVar (values : List ℚ) : ℚ :=
  (values.map (fun x => (x - mean values) ^ 2)).sum / ((values.length : ℚ) - 1)

/-- Model of `round` half-to-even on the scaled rational, modelling the float
format specifiers `:.1f` / `:.0f` of `generate_insight`. -/
def roundHE (x : ℚ) : ℤ :=
  let f := ⌊x⌋
  let r := x - f
  if r < 1 / 2 then f
  else if 1 / 2 < r then f + 1
  else if f % 2 = 0 then f else f + 1

def fmt0 (x : ℚ) : String := toString (roundHE x)

def fmt1 (x : ℚ) : String :=
  let n := roundHE (x * 10)
  let s := toString (n.natAbs / 10) ++ "." ++ toString (n.natAbs % 10)
  if n < 0 then "-" ++ s else s

/-- the nested `fmt` helper of `generate_insight`. -/
def fmtVal (unit_type : Option String) (v : ℚ) : String :=
  if unit_type == some "percentage" then fmt1 v ++ "%"
  else if unit_type == some "currency" then
    if v ≥ 1000000 then "$" ++ fmt1 (v / 1000000) ++ "M"
    else if v ≥ 1000 then "$" ++ fmt0 (v / 1000) ++ "K"
    else "$" ++ fmt0 v
  else if unit_type == some "multiple" then fmt1 v ++ "x"
  else if |v| ≥ 1000 then fmt1 (v / 1000) ++ "K"
  else fmt1 v

/-- Model of `VisualizationService.resolve_intent` (rule-based fallback); the
`all_metrics` argument is accepted but unread, as in the source. -/
structure MDict where
  id : Option String := none
  label : Option String := none
  deriving DecidableEq, Repr

def resolve_intent (metric_label : String) (values : List ℚ)
    (unit_type : Option String) (all_metrics : List MDict)
    (all_values_by_metric : List (String × List ℚ)) : String × ℚ :=
  let label_lower := Py.lower metric_label
  let time_score := (TIME_KEYWORDS.filter (fun kw => Py.containsSub label_lower kw)).length
  if time_score > 0 then
    ("trend", min (0.6 + (time_score : ℚ) * 0.1) 0.95)
  else
    let composition_score :=
      (COMPOSITION_KEYWORDS.filter (fun kw => Py.containsSub label_lower kw)).length
    if composition_score > 0 && unit_type == some "percentage" then
      ("composition", min (0.5 + (composition_score : ℚ) * 0.15) 0.9)
    else
      let comparison_score :=
        (COMPARISON_KEYWORDS.filter (fun kw => Py.containsSub label_lower kw)).length
      if comparison_score > 0 then
        ("comparison", min (0.5 + (comparison_score : ℚ) * 0.15) 0.9)
      else if (["change", "delta", "difference", "gain", "loss"] : List String).any
          (fun kw => Py.containsSub label_lower kw) then
        ("delta", 0.75)
      else
        let other_numeric_columns := all_values_by_metric.filter
          (fun kv => kv.1 != metric_label && kv.2.length ≥ 3)
        if !other_numeric_columns.isEmpty then ("relationship", 0.4)
        else if values.length ≥ 5 then ("distribution", 0.7)
        else ("comparison", 0.5)

/-- Model of `VisualizationService.select_chart_type` (rule-based fallback). -/
def select_chart_type (intent : String) (values : List ℚ)
    (unit_type : Option String) : String :=
  if intent == "trend" then
    if unit_type == some "percentage" then "area" else "line"
  else if intent == "distribution" then
    if values.length ≥ 5 then
      let sorted_values := sortAsc values
      let q1 := sorted_values.getD (sorted_values.length / 4) 0
      let q3 := sorted_values.getD ((3 * sorted_values.length) / 4) 0
      let iqr := q3 - q1
      if iqr > 0 then
        let lower_bound := q1 - 1.5 * iqr
        let upper_bound := q3 + 1.5 * iqr
        if sorted_values.any (fun v => v < lower_bound || v > upper_bound)
        then "boxplot" else "histogram"
      else "histogram"
    else "histogram"
  else if intent == "comparison" then "lollipop"
  else if intent == "delta" then "delta_bar"
  else if intent == "relationship" then "scatter"
  else if intent == "composition" then "histogram"
  else "histogram"

/-- Model of `VisualizationService.reveals_new_information`. -/
def reveals_new_information (intent : String) (values : List ℚ)
    (cardinality : ℕ) : Bool × String :=
  if cardinality < 2 then (false, "Need at least 2 data points")
  else if intent == "trend" then (true, "Time-based patterns benefit from visualization")
  else if intent == "delta" then (true, "Change visualization clarifies direction and magnitude")
  else if intent == "relationship" then (true, "Relationship patterns not visible in tabular form")
  else if intent == "distribution" then (true, "Distribution visualization shows spread")
  else if intent == "comparison" then (true, "Comparison chart highlights differences")
  else if intent == "composition" then (true, "Composition chart shows proportions")
  else (true, "Chart provides visual context")

/-- Model of `VisualizationService.generate_insight`.  The float test `cv > 50`
(with `cv = stdev / mean * 100`, `stdev ≥ 0`) holds exactly when
`mean > 0` and `4 * variance > mean²`, which keeps the condition
rational. -/
def generate_insight (intent : String) (values : List ℚ)
    (unit_type : Option String) (metric_label : String) : Option String :=
  if values.isEmpty || values.length < 2 then none
  else
    let m := mean values
    let med := median values
    let min_val := listMin values
    let max_val := listMax values
    let fmt := fmtVal unit_type
    if intent == "distribution" then
      if values.length ≥ 3 then
        if 0 < m ∧ 4 * sampleVar values > m ^ 2 then
          some ("High variance — " ++ fmt min_val ++ " to " ++ fmt max_val)
        else if (if m ≠ 0 then |m - med| / m > 0.15 else False) then
          some ("Skewed distribution — median " ++ fmt med ++ " vs mean " ++ fmt m)
        else some ("Centered around " ++ fmt med)
      else none
    else if intent == "comparison" then
      let spread := max_val - min_val
      if (if m ≠ 0 then spread / m > 0.5 else False) then
        some ("Wide spread — " ++ fmt min_val ++ " to " ++ fmt max_val)
      else some ("Range: " ++ fmt min_val ++ " – " ++ fmt max_val)
    else if intent == "delta" then
      some ("Values range from " ++ fmt min_val ++ " to " ++ fmt max_val)
    else if intent == "trend" then
      some ("Range: " ++ fmt min_val ++ " to " ++ fmt max_val)
    else none

/-- response dict of `_fallback_analyze_column` / `_llm_spec_to_response`. -/
structure AnalysisResult where
  visualizable : Bool
  data_type : Option String
  cardinality : ℕ
  values : List ℚ
  value_doc_indices : List ℕ
  unit_type : Option String
  chart_type : Option String
  intent : Option String
  intent_confidence : ℚ
  reveals_info : Bool
  info_reason : String
  insight : Option String
  llm_powered : Bool
  deriving DecidableEq, Repr

/-- Model of `VisualizationService._fallback_analyze_column`. -/
def _fallback_analyze_column (metric_label : String) (parsed_values : List ℚ)
    (most_common_unit : Option String) (all_metrics : List MDict)
    (all_values_by_metric : List (String × List ℚ)) (value_doc_map : List ℕ)
    (cardinality : ℕ) (units_consistent : Bool) : AnalysisResult :=
  let ic := resolve_intent metric_label parsed_values most_common_unit
    all_metrics all_values_by_metric
  let chart_type := select_chart_type ic.1 parsed_values most_common_unit
  let ri := reveals_new_information ic.1 parsed_values cardinality
  let insight := generate_insight ic.1 parsed_values most_common_unit metric_label
  { visualizable := cardinality ≥ 2 && most_common_unit.isSome,
    data_type := most_common_unit,
    cardinality := cardinality,
    values := parsed_values,
    value_doc_indices := value_doc_map,
    unit_type := most_common_unit,
    chart_type := some chart_type,
    intent := some ic.1,
    intent_confidence := ic.2,
    reveals_info := ri.1,
    info_reason := ri.2,
    insight := insight,
    llm_powered := false }

/-- validated LLM chart spec (`LLMChartSpec`,
`backend/models/visualization.py`), restricted to the fields that
`_llm_spec_to_response` reads (`axes`, `emphasis` and `placement` are
never consumed by the column-analysis path). -/
structure LLMChartSpec where
  should_render : Bool
  reason : Option String := none
  primary_question : Option String := none
  intent : Option String := none
  chart_type : Option String := none
  insight : Option String := none
  deriving DecidableEq, Repr

def LLM_TO_FRONTEND_CHART_TYPE : List (String × String) :=
  [("LINE", "line"), ("AREA", "area"), ("SLOPE", "slope"), ("SCATTER", "scatter"),
   ("BOX", "boxplot"), ("HISTOGRAM", "histogram"), ("WATERFALL", "delta_bar"),
   ("LOLLIPOP", "lollipop"), ("DELTA_BAR", "delta_bar")]

def LLM_TO_FRONTEND_INTENT : List (String × String) :=
  [("TREND", "trend"), ("DELTA", "delta"), ("RELATIONSHIP", "relationship"),
   ("COMPARISON", "comparison"), ("DISTRIBUTION", "distribution"),
   ("COMPOSITION", "composition")]

/-- Model of `VisualizationService._llm_spec_to_response`. -/
def _llm_spec_to_response (llm_spec : LLMChartSpec) (parsed_values : List ℚ)
    (most_common_unit : Option String) (value_doc_map : List ℕ)
    (cardinality : ℕ) (units_consistent : Bool) : AnalysisResult :=
  if !llm_spec.should_render then
    { visualizable := false,
      data_type := most_common_unit,
      cardinality := cardinality,
      values := parsed_values,
      value_doc_indices := value_doc_map,
      unit_type := most_common_unit,
      chart_type := none,
      intent := none,
      intent_confidence := 0,
      reveals_info := false,
      info_reason := llm_spec.reason.getD
        "Matrix already communicates this information clearly",
      insight := none,
      llm_powered := true }
  else
    let llm_intent := llm_spec.intent.getD "DISTRIBUTION"
    let llm_chart_type := llm_spec.chart_type.getD "HISTOGRAM"
    { visualizable := cardinality ≥ 2 && most_common_unit.isSome,
      data_type := most_common_unit,
      cardinality := cardinality,
      values := parsed_values,
      value_doc_indices := value_doc_map,
      unit_type := most_common_unit,
      chart_type := some ((LLM_TO_FRONTEND_CHART_TYPE.lookup llm_chart_type).getD "histogram"),
      intent := some ((LLM_TO_FRONTEND_INTENT.lookup llm_intent).getD "distribution"),
      intent_confidence := 0.95,
      reveals_info := true,
      info_reason := llm_spec.primary_question.getD "LLM-determined visualization",
      insight := llm_spec.insight,
      llm_powered := true }

/-- truthy cell values of a metric column, in dict order
(the `metric_cells` collection loop of `analyze_column_async`). -/
def metricCells (metric_id : String) (cells : List (String × Option String)) :
    List String :=
  cells.filterMap
    (fun kv =>
      if Py.containsSub kv.1 ("-" ++ metric_id) then
        match kv.2 with
        | some v => if v != "" then some v else none
        | none => none
      else none)

/-- the parse loop: `(idx, value, unit)` for each cell value that
`parse_numeric_value` accepts (`idx` is the position in `metric_cells`). -/
def columnParsed (metric_id : String) (cells : List (String × Option String)) :
    List (ℕ × ℚ × String) :=
  (metricCells metric_id cells).enum.filterMap
    (fun iv => (parse_numeric_value iv.2).map (fun p => (iv.1, p.1, p.2)))

/-- Model of `Counter(unit_types).most_common(1)[0][0]`: maximal count, ties broken
by first insertion. -/
def mostCommon (l : List String) : Option String :=
  match Py.firstDedup l with
  | [] => none
  | u :: us => some (us.foldl (fun best cand => if l.count cand > l.count best then cand else best) u)

def columnValues (metric_id : String) (cells : List (String × Option String)) : List ℚ :=
  (columnParsed metric_id cells).map (fun t => t.2.1)

def columnUnits (metric_id : String) (cells : List (String × Option String)) : List String :=
  (columnParsed metric_id cells).map (fun t => t.2.2)

def columnDocMap (metric_id : String) (cells : List (String × Option String)) : List ℕ :=
  (columnParsed metric_id cells).map (fun t => t.1)

def columnCardinality (metric_id : String) (cells : List (String × Option String)) : ℕ :=
  (columnValues metric_id cells).length

def columnUnit (metric_id : String) (cells : List (String × Option String)) : Option String :=
  mostCommon (columnUnits metric_id cells)

/-- Model of `units_consistent = len(set(unit_types)) <= 1 if unit_types else False`. -/
def columnUnitsConsistent (metric_id : String) (cells : List (String × Option String)) : Bool :=
  if !(columnUnits metric_id cells).isEmpty then
    (Py.firstDedup (columnUnits metric_id cells)).length ≤ 1
  else false

/-- Model of `VisualizationService.analyze_column_async`, with the outcome of the
(awaited, cached, timeout-guarded) LLM call supplied as `llm_spec` and
`settings.chart.use_llm` as `use_llm`. -/
def analyze_column_async (use_llm : Bool) (llm_spec : Option LLMChartSpec)
    (metric_id metric_label : String) (cells : List (String × Option String))
    (all_metrics : List MDict)
    (all_values_by_metric : List (String × List ℚ)) : AnalysisResult :=
  let parsed_values := columnValues metric_id cells
  let value_doc_map := columnDocMap metric_id cells
  let most_common_unit := columnUnit metric_id cells
  let cardinality := columnCardinality metric_id cells
  let units_consistent := columnUnitsConsistent metric_id cells
  if cardinality < 2 || most_common_unit.isNone then
    _fallback_analyze_column metric_label parsed_values most_common_unit
      all_metrics all_values_by_metric value_doc_map cardinality units_consistent
  else if use_llm then
    match llm_spec with
    | some spec =>
      if spec.should_render then
        _llm_spec_to_response spec parsed_values most_common_unit
          value_doc_map cardinality units_consistent
      else
        -- LLM said "no chart": overridden, fall through to the rules
        _fallback_analyze_column metric_label parsed_values most_common_unit
          all_metrics all_values_by_metric value_doc_map cardinality units_consistent
    | none =>
      _fallback_analyze_column metric_label parsed_values most_common_unit
        all_metrics all_values_by_metric value_doc_map cardinality units_consistent
  else
    _fallback_analyze_column metric_label parsed_values most_common_unit
      all_metrics all_values_by_metric value_doc_map cardinality units_consistent

end Visualization

/-! ## concrete inputs used by counterexamples and witnesses -/

/-- a raw LLM citation carrying a real (5-character) `doc_id` and own
index `3`. -/
def rcIndex3 : Chat.RawCitation :=
  { type := some "cell", index := some 3, doc_id := some "DOC_A",
    doc_name := some "A", metric_id := some "m", metric_label := some "M",
    value := some "5" }

/-- a raw LLM citation with own index `1`. -/
def rcIndex1 : Chat.RawCitation :=
  { type := some "cell", index := some 1, doc_id := some "DOC_A",
    doc_name := some "A", metric_id := some "m", metric_label := some "M",
    value := some "5" }

/-- a 1990-character paragraph (not a header, no whitespace). -/
def bigPara : String := String.mk (List.replicate 1990 'a')

/-- document whose second paragraph is an all-caps header and overflows
the 2000-character chunk budget. -/
def bigDoc : MatrixRetriever.Document :=
  { id := "d1", name := "DocOne", type := "text", size := 2003,
    content := bigPara ++ "\n\nNEW SECTION" }

def exDocument : MatrixRetriever.Document :=
  { id := "doc_1", name := "DocOne", type := "text", content := "", size := 0 }

def exHighMatch : MatrixRetriever.CellMatch :=
  { doc_id := "doc_1", doc_name := "DocOne", metric_id := "m1",
    metric_label := "Revenue (EUR)",
    cell := { value := some "5", confidence := some "High" },
    relevance_score := 1 }

def exMetrics : List MatrixRetriever.Metric :=
  [{ id := "m1", label := "Revenue (EUR)" }]

def exCells : List (String × MatrixRetriever.CellData) :=
  [("doc_1-m1", { value := some "5", confidence := some "High" })]

/-- a metric column holding two parseable numeric cell values. -/
def exColumn2 : List (String × Option String) :=
  [("d1-m1", some "5"), ("d2-m1", some "6")]

/-- a metric column holding a single parseable numeric cell value. -/
def exColumn1 : List (String × Option String) :=
  [("d1-m1", some "5")]

/-- a validated LLM chart spec that declines to render. -/
def exSpecNoRender : Visualization.LLMChartSpec :=
  { should_render := false, reason := some "matrix suffices" }

/-! # Theorems about the claims -/

/-- C2 counterexample: `parse_numeric_value "714m"` yields
`(714.0, "numeric")` — none of the currency patterns accepts `"714m"`
(each requires a `$`, `USD` or `EUR` token), so the value falls through
to the plain-numeric branch and is *not* `(714000000.0, "currency")`. -/
theorem C2_parse_714m_counterexample :
    Visualization.parse_numeric_value "714m" = some (714, "numeric") ∧
    Visualization.parse_numeric_value "714m" ≠ some (714000000, "currency") := by
  decide!

/-- C2 amended: parsing the cell value `"$714m"` (with the dollar sign
required by `CURRENCY_PATTERNS`) yields numeric value `714000000.0` with
unit type `"currency"`; the bare `"714m"` parses as `(714.0, "numeric")`. -/
theorem C2_parse_dollar714m :
    Visualization.parse_numeric_value "$714m" = some (714000000, "currency") := by
  decide!

/-- C10: `parse_numeric_value` returns `None` for exactly the sentinel
inputs `""`, `"—"` and `"Fault"` (first line of the function), so a cell
holding `"Fault"` contributes neither a numeric value nor a unit to its
column, exactly like the empty value and the `"—"` placeholder: in a
column whose cells hold `"Fault"` and `"7"`, only `7` survives. -/
theorem C10_fault_sentinel :
    Visualization.parse_numeric_value "" = none ∧
    Visualization.parse_numeric_value "—" = none ∧
    Visualization.parse_numeric_value "Fault" = none ∧
    Visualization.columnValues "m1" [("d1-m1", some "Fault"), ("d2-m1", some "7")] = [7] ∧
    Visualization.columnUnits "m1" [("d1-m1", some "Fault"), ("d2-m1", some "7")] = ["numeric"] ∧
    Visualization.columnUnit "m1" [("d1-m1", some "Fault")] = none := by
  decide!

/-- C4: the leakage-cleanup example of the spec, a second input
exercising the bare-marker pattern and stray `(doc_id=...)` fragments,
and the order-sensitivity: running the bare-marker pattern first (and the
parenthetical pattern second) leaves the parenthetical `(a)` behind. -/
theorem C4_clean_citation_leakage :
    Chat._clean_citation_leakage "See [Doc 1] (doc_id=N_6F03AD) for details"
      = "See [1] for details" ∧
    Chat._clean_citation_leakage "[Cell 2] (a) and [Doc 3] see (doc_id=xyz)"
      = "[2] and [3] see" ∧
    (⟨Chat.runSub Chat.tryDocIdParen (Chat.runSub Chat.tryMarkerParen
        (Chat.runSub Chat.tryMarker ("[Cell 2] (a)").data))⟩ : String)
      = "[2] (a)" ∧
    Chat._clean_citation_leakage "[Cell 2] (a)" = "[2]" := by
  decide!

/-- C1 counterexample: with response text `"See [1] [2] [3]"` and a single
enriched citation whose own `index` is `3` (its 5-character `doc_id` passes
enrichment unchanged), the middle reference resolves to nothing and is
skipped while `new_index` still advances, so the returned indices are
`[1, 3]` — unique but *not* contiguous from 1. -/
theorem C1_noncontiguous_counterexample :
    Chat._enrich_citations [rcIndex3] [] [] = [rcIndex3] ∧
    ((Chat._normalize_citations "See [1] [2] [3]" [rcIndex3]).2.map Chat.Citation.index)
      = [1, 3] ∧
    ((Chat._normalize_citations "See [1] [2] [3]" [rcIndex3]).2.map Chat.Citation.index)
      ≠ List.range' 1 (Chat._normalize_citations "See [1] [2] [3]" [rcIndex3]).2.length := by
  decide!

/-- C8: `has_sufficient_data` is monotone under appending any further
match (in particular a High-confidence one): both the High-confidence
count and the total count can only grow, so a sufficient match list stays
sufficient and sufficiency can only move from false to true. -/
theorem C8_has_sufficient_data_monotone (ms : List MatrixRetriever.CellMatch)
    (m : MatrixRetriever.CellMatch) (threshold : ℕ)
    (h : MatrixRetriever.has_sufficient_data ms threshold = true) :
    MatrixRetriever.has_sufficient_data (ms ++ [m]) threshold = true := by
  simp only [MatrixRetriever.has_sufficient_data, List.filter_append,
    List.length_append, Bool.or_eq_true, decide_eq_true_eq] at h ⊢
  omega

/-- witness for C8 at a concrete input: two High-confidence matches are
sufficient at the default threshold 2, and appending a third keeps it so. -/
theorem C8_has_sufficient_data_monotone_witness :
    MatrixRetriever.has_sufficient_data ([exHighMatch, exHighMatch] ++ [exHighMatch]) 2 = true :=
  C8_has_sufficient_data_monotone [exHighMatch, exHighMatch] exHighMatch 2 (by decide!)

/-- Model of `_enrich_citations` leaves a citation unchanged whenever its `doc_id`
is a present string of length ≥ 5 (hence in particular not `"..."`):
the placeholder guard `not doc_id or doc_id == "..." or len(doc_id) < 5`
is false, and no other statement writes to the citation. -/
theorem enrichOne_eq_self_of_docid (cell_map : List MatrixRetriever.CellMatch)
    (doc_map : List DocumentRetriever.DocChunk) (c : Chat.RawCitation) (s : String)
    (hs : c.doc_id = some s) (h5 : 5 ≤ s.length) :
    Chat.enrichOne cell_map doc_map c = c := by
  have hne : (s == "") = false := by
    cases heq : s == "" with
    | true => simp only [beq_iff_eq] at heq; subst heq; simp at h5
    | false => rfl
  have hdots : (s == "...") = false := by
    cases heq : s == "..." with
    | true =>
      simp only [beq_iff_eq] at heq; subst heq
      simp [String.length] at h5
    | false => rfl
  have hlt : decide (s.length < 5) = false := by
    simp only [decide_eq_false_iff_not, not_lt]; exact h5
  unfold Chat.enrichOne
  by_cases ht : c.type == some "cell"
  · simp only [ht, if_pos, hs, Option.getD_some, hne, hdots, hlt,
      Bool.or_self, Bool.or_false, Bool.false_or, if_false]
    rfl
  · simp only [Bool.not_eq_true] at ht
    rw [if_neg (by simp [ht])]
    by_cases ht2 : c.type == some "document"
    · simp only [ht2, if_pos, hs, Option.getD_some, hne, hdots, hlt,
        Bool.or_self, Bool.or_false, Bool.false_or, if_false]
      rfl
    · simp only [Bool.not_eq_true] at ht2
      rw [if_neg (by simp [ht2])]

/-- Model of `_enrich_citations` leaves a citation of unrecognized `type` unchanged. -/
theorem enrichOne_eq_self_of_type (cell_map : List MatrixRetriever.CellMatch)
    (doc_map : List DocumentRetriever.DocChunk) (c : Chat.RawCitation)
    (h1 : c.type ≠ some "cell") (h2 : c.type ≠ some "document") :
    Chat.enrichOne cell_map doc_map c = c := by
  unfold Chat.enrichOne
  rw [if_neg (by simp [h1]), if_neg (by simp [h2])]

/-- C9: `_enrich_citations` returns a list of exactly the input's length
(the i-th output derived from the i-th input), returns any citation whose
`doc_id` is a string of length ≥ 5 and not `"..."` completely unchanged,
and passes citations of unrecognized `type` through as copies. -/
theorem C9_enrich_citations_frame (raw : List Chat.RawCitation)
    (cell_map : List MatrixRetriever.CellMatch)
    (doc_map : List DocumentRetriever.DocChunk) :
    (Chat._enrich_citations raw cell_map doc_map).length = raw.length ∧
    (∀ i c s, raw.get? i = some c → c.doc_id = some s → 5 ≤ s.length → s ≠ "..." →
      (Chat._enrich_citations raw cell_map doc_map).get? i = some c) ∧
    (∀ i c, raw.get? i = some c → c.type ≠ some "cell" → c.type ≠ some "document" →
      (Chat._enrich_citations raw cell_map doc_map).get? i = some c) := by
  refine ⟨List.length_map raw _, ?_, ?_⟩
  · intro i c s hi hs h5 _hdots
    simp only [Chat._enrich_citations, List.get?_map, hi, Option.map_some']
    rw [enrichOne_eq_self_of_docid cell_map doc_map c s hs h5]
  · intro i c hi h1 h2
    simp only [Chat._enrich_citations, List.get?_map, hi, Option.map_some']
    rw [enrichOne_eq_self_of_type cell_map doc_map c h1 h2]

/-- witness for C9 at a concrete input: a cell citation with the
5-character `doc_id` `"DOC_A"` passes through enrichment unchanged. -/
theorem C9_enrich_citations_frame_witness :
    (Chat._enrich_citations [rcIndex1] [] []).length = 1 ∧
    (Chat._enrich_citations [rcIndex1] [] []).get? 0 = some rcIndex1 :=
  ⟨(C9_enrich_citations_frame [rcIndex1] [] []).1,
   (C9_enrich_citations_frame [rcIndex1] [] []).2.1 0 rcIndex1 "DOC_A" rfl rfl
     (by decide) (by decide)⟩

/-! ### C5 infrastructure -/

theorem getLast?_mem {α : Type} {l : List α} {a : α} (h : l.getLast? = some a) :
    a ∈ l := by
  induction l with
  | nil => simp at h
  | cons x xs ih =>
    cases xs with
    | nil => simp_all [List.getLast?]
    | cons y ys =>
      rw [List.getLast?_cons_cons] at h
      exact List.mem_cons_of_mem x (ih h)

theorem docLookup_mem {documents : List MatrixRetriever.Document} {i : String}
    {d : MatrixRetriever.Document} (h : MatrixRetriever.docLookup documents i = some d) :
    d ∈ documents ∧ d.id = i := by
  unfold MatrixRetriever.docLookup at h
  have hm := getLast?_mem h
  rw [List.mem_filter] at hm
  exact ⟨hm.1, by simpa using hm.2⟩

theorem cellValueOk_iff (v : Option String) :
    MatrixRetriever.cellValueOk v = true ↔
      v ≠ none ∧ v ≠ some "" ∧ v ≠ some "—" := by
  cases v with
  | none => simp [MatrixRetriever.cellValueOk]
  | some s => simp [MatrixRetriever.cellValueOk]

/-- every match emitted by the cell scan carries the metric's relevance, a
truthy non-placeholder value, and a resolvable document id. -/
theorem cellsForMetric_mem {documents : List MatrixRetriever.Document}
    {metric : MatrixRetriever.Metric} {relevance : ℚ}
    {cells : List (String × MatrixRetriever.CellData)}
    {m : MatrixRetriever.CellMatch}
    (hm : m ∈ MatrixRetriever.cellsForMetric documents metric relevance cells) :
    m.relevance_score = relevance ∧
    MatrixRetriever.cellValueOk m.cell.value = true ∧
    ∃ d ∈ documents, d.id = m.doc_id := by
  induction cells with
  | nil => simp [MatrixRetriever.cellsForMetric] at hm
  | cons kv rest ih =>
    obtain ⟨cell_key, cell⟩ := kv
    rw [MatrixRetriever.cellsForMetric, List.mem_append] at hm
    rcases hm with hm | hm
    · by_cases hc : Py.containsSub cell_key ("-" ++ metric.id) &&
        MatrixRetriever.cellValueOk cell.value
      · rw [if_pos hc] at hm
        cases hdoc : MatrixRetriever.docLookup documents
            (MatrixRetriever.splitFirst cell_key ("-" ++ metric.id)) with
        | none => rw [hdoc] at hm; simp at hm
        | some doc =>
          rw [hdoc] at hm
          rw [List.mem_singleton] at hm
          subst hm
          refine ⟨rfl, (Bool.and_eq_true _ _ |>.mp hc).2, ?_⟩
          obtain ⟨hmem, hid⟩ := docLookup_mem hdoc
          exact ⟨doc, hmem, hid⟩
      · rw [if_neg hc] at hm; simp at hm
    · exact ih hm

/-- every match collected before sorting scores at least `min_relevance`
and satisfies the cell/document conditions. -/
theorem collectMatches_mem {cells : List (String × MatrixRetriever.CellData)}
    {documents : List MatrixRetriever.Document} {min_relevance : ℚ}
    {query_terms : List String} {metrics : List MatrixRetriever.Metric}
    {m : MatrixRetriever.CellMatch}
    (hm : m ∈ MatrixRetriever.collectMatches cells documents min_relevance
      query_terms metrics) :
    min_relevance ≤ m.relevance_score ∧
    MatrixRetriever.cellValueOk m.cell.value = true ∧
    ∃ d ∈ documents, d.id = m.doc_id := by
  induction metrics with
  | nil => simp [MatrixRetriever.collectMatches] at hm
  | cons metric rest ih =>
    rw [MatrixRetriever.collectMatches, List.mem_append] at hm
    rcases hm with hm | hm
    · by_cases hrel : min_relevance ≤
        MatrixRetriever._score_metric_relevance metric.label query_terms
      · rw [if_pos hrel] at hm
        obtain ⟨h1, h2, h3⟩ := cellsForMetric_mem hm
        exact ⟨h1 ▸ hrel, h2, h3⟩
      · rw [if_neg hrel] at hm; simp at hm
    · exact ih hm

theorem mem_insertDesc {m x : MatrixRetriever.CellMatch}
    {l : List MatrixRetriever.CellMatch} :
    x ∈ MatrixRetriever.insertDesc m l ↔ x = m ∨ x ∈ l := by
  induction l with
  | nil => simp [MatrixRetriever.insertDesc]
  | cons y ys ih =>
    rw [MatrixRetriever.insertDesc]
    by_cases hc : m.relevance_score ≤ y.relevance_score
    · rw [if_pos hc]
      simp only [List.mem_cons, ih]
      tauto
    · rw [if_neg hc]
      simp only [List.mem_cons]

theorem pairwise_insertDesc {m : MatrixRetriever.CellMatch}
    {l : List MatrixRetriever.CellMatch}
    (h : l.Pairwise (fun a b => b.relevance_score ≤ a.relevance_score)) :
    (MatrixRetriever.insertDesc m l).Pairwise
      (fun a b => b.relevance_score ≤ a.relevance_score) := by
  induction l with
  | nil => simp [MatrixRetriever.insertDesc]
  | cons y ys ih =>
    rw [List.pairwise_cons] at h
    rw [MatrixRetriever.insertDesc]
    by_cases hc : m.relevance_score ≤ y.relevance_score
    · rw [if_pos hc, List.pairwise_cons]
      refine ⟨?_, ih h.2⟩
      intro b hb
      rcases mem_insertDesc.mp hb with rfl | hb
      · exact hc
      · exact h.1 b hb
    · rw [if_neg hc, List.pairwise_cons]
      push_neg at hc
      refine ⟨?_, List.pairwise_cons.mpr h⟩
      intro b hb
      rcases List.mem_cons.mp hb with rfl | hb
      · exact le_of_lt hc
      · exact le_trans (h.1 b hb) (le_of_lt hc)

theorem sortDesc_foldl_mem (l : List MatrixRetriever.CellMatch) :
    ∀ (acc : List MatrixRetriever.CellMatch) (x : MatrixRetriever.CellMatch),
      x ∈ l.foldl (fun acc m => MatrixRetriever.insertDesc m acc) acc ↔
        x ∈ acc ∨ x ∈ l := by
  induction l with
  | nil => simp
  | cons y ys ih =>
    intro acc x
    rw [List.foldl_cons, ih, mem_insertDesc]
    simp only [List.mem_cons]
    tauto

theorem sortDesc_foldl_pairwise (l : List MatrixRetriever.CellMatch) :
    ∀ (acc : List MatrixRetriever.CellMatch),
      acc.Pairwise (fun a b => b.relevance_score ≤ a.relevance_score) →
      (l.foldl (fun acc m => MatrixRetriever.insertDesc m acc) acc).Pairwise
        (fun a b => b.relevance_score ≤ a.relevance_score) := by
  induction l with
  | nil => intro acc h; simpa using h
  | cons y ys ih =>
    intro acc h
    rw [List.foldl_cons]
    exact ih _ (pairwise_insertDesc h)

theorem mem_sortDesc {l : List MatrixRetriever.CellMatch}
    {x : MatrixRetriever.CellMatch} :
    x ∈ MatrixRetriever.sortDesc l ↔ x ∈ l := by
  rw [MatrixRetriever.sortDesc, sortDesc_foldl_mem]
  simp

theorem pairwise_sortDesc (l : List MatrixRetriever.CellMatch) :
    (MatrixRetriever.sortDesc l).Pairwise
      (fun a b => b.relevance_score ≤ a.relevance_score) :=
  sortDesc_foldl_pairwise l [] (List.Pairwise.nil)

/-- C5: for every query, cell map, metric list, document list and
`min_relevance`, `MatrixRetriever.retrieve` returns matches sorted by
non-increasing `relevance_score`, and every returned match scores at
least `min_relevance`, holds a non-empty cell value different from the
`"—"` placeholder, and carries a `doc_id` resolving to a known document. -/
theorem C5_retrieve_sound (query : String)
    (cells : List (String × MatrixRetriever.CellData))
    (metrics : List MatrixRetriever.Metric)
    (documents : List MatrixRetriever.Document) (min_relevance : ℚ) :
    (MatrixRetriever.retrieve query cells metrics documents min_relevance).Pairwise
      (fun a b => b.relevance_score ≤ a.relevance_score) ∧
    ∀ m ∈ MatrixRetriever.retrieve query cells metrics documents min_relevance,
      min_relevance ≤ m.relevance_score ∧
      m.cell.value ≠ none ∧ m.cell.value ≠ some "" ∧ m.cell.value ≠ some "—" ∧
      ∃ d ∈ documents, d.id = m.doc_id := by
  constructor
  · exact pairwise_sortDesc _
  · intro m hm
    rw [MatrixRetriever.retrieve, mem_sortDesc] at hm
    obtain ⟨h1, h2, h3⟩ := collectMatches_mem hm
    obtain ⟨v1, v2, v3⟩ := (cellValueOk_iff _).mp h2
    exact ⟨h1, v1, v2, v3, h3⟩

/-- witness for C5 at a concrete input: the single revenue match of the
end-to-end scenario is returned sorted, scores `1 ≥ 0.3`, holds a truthy
non-placeholder value and resolves to the known document. -/
theorem C5_retrieve_sound_witness :
    (MatrixRetriever.retrieve "What is the revenue?" exCells exMetrics
      [exDocument] (3 / 10)).Pairwise
      (fun a b => b.relevance_score ≤ a.relevance_score) ∧
    ((3 / 10 : ℚ) ≤ exHighMatch.relevance_score ∧
      exHighMatch.cell.value ≠ none ∧ exHighMatch.cell.value ≠ some "" ∧
      exHighMatch.cell.value ≠ some "—" ∧
      ∃ d ∈ [exDocument], d.id = exHighMatch.doc_id) :=
  ⟨(C5_retrieve_sound "What is the revenue?" exCells exMetrics [exDocument] (3 / 10)).1,
   (C5_retrieve_sound "What is the revenue?" exCells exMetrics [exDocument] (3 / 10)).2
     exHighMatch (by decide!)⟩

/-! ### C6 / C7 -/

/-- C6: for a column with at least 2 parsed numeric values and a detected
unit type, when the validated LLM spec says `should_render = false`,
`analyze_column_async` overrides that decision and returns the rule-based
fallback result, which marks the column visualizable. -/
theorem C6_no_render_overridden (llm_spec : Visualization.LLMChartSpec)
    (metric_id metric_label : String) (cells : List (String × Option String))
    (all_metrics : List Visualization.MDict)
    (all_values_by_metric : List (String × List ℚ))
    (h1 : 2 ≤ Visualization.columnCardinality metric_id cells)
    (h2 : Visualization.columnUnit metric_id cells ≠ none)
    (h3 : llm_spec.should_render = false) :
    Visualization.analyze_column_async true (some llm_spec) metric_id metric_label
        cells all_metrics all_values_by_metric
      = Visualization._fallback_analyze_column metric_label
          (Visualization.columnValues metric_id cells)
          (Visualization.columnUnit metric_id cells)
          all_metrics all_values_by_metric
          (Visualization.columnDocMap metric_id cells)
          (Visualization.columnCardinality metric_id cells)
          (Visualization.columnUnitsConsistent metric_id cells) ∧
    (Visualization.analyze_column_async true (some llm_spec) metric_id metric_label
        cells all_metrics all_values_by_metric).visualizable = true := by
  have hlt : decide (Visualization.columnCardinality metric_id cells < 2) = false := by
    simp [Nat.not_lt.mpr h1]
  have hnone : (Visualization.columnUnit metric_id cells).isNone = false := by
    cases h : Visualization.columnUnit metric_id cells with
    | none => exact absurd h h2
    | some u => rfl
  have heq : Visualization.analyze_column_async true (some llm_spec) metric_id
      metric_label cells all_metrics all_values_by_metric
      = Visualization._fallback_analyze_column metric_label
          (Visualization.columnValues metric_id cells)
          (Visualization.columnUnit metric_id cells)
          all_metrics all_values_by_metric
          (Visualization.columnDocMap metric_id cells)
          (Visualization.columnCardinality metric_id cells)
          (Visualization.columnUnitsConsistent metric_id cells) := by
    rw [Visualization.analyze_column_async]
    simp only [hlt, hnone, Bool.or_self, Bool.false_or, if_false, h3,
      Bool.false_eq_true, if_true]
  refine ⟨heq, ?_⟩
  rw [heq, Visualization._fallback_analyze_column]
  simp [h1, Option.isSome_iff_ne_none, h2]

/-- witness for C6 at a concrete input: a column with values `5` and `6`
(unit `"numeric"`) and an LLM spec declining to render is analyzed by the
fallback rules and marked visualizable. -/
theorem C6_no_render_overridden_witness :
    Visualization.analyze_column_async true (some exSpecNoRender) "m1" "Revenue"
        exColumn2 [] []
      = Visualization._fallback_analyze_column "Revenue"
          (Visualization.columnValues "m1" exColumn2)
          (Visualization.columnUnit "m1" exColumn2) [] []
          (Visualization.columnDocMap "m1" exColumn2)
          (Visualization.columnCardinality "m1" exColumn2)
          (Visualization.columnUnitsConsistent "m1" exColumn2) ∧
    (Visualization.analyze_column_async true (some exSpecNoRender) "m1" "Revenue"
        exColumn2 [] []).visualizable = true :=
  C6_no_render_overridden exSpecNoRender "m1" "Revenue" exColumn2 [] []
    (by decide!) (by decide!) rfl

/-- C7: for a column whose cells parse to fewer than 2 numeric values or
with no detected unit type, `analyze_column_async` returns the same
not-visualizable result for every `use_llm` flag and every LLM outcome:
the early return never consults the LLM. -/
theorem C7_insufficient_column_skips_llm (use_llm1 use_llm2 : Bool)
    (spec1 spec2 : Option Visualization.LLMChartSpec)
    (metric_id metric_label : String) (cells : List (String × Option String))
    (all_metrics : List Visualization.MDict)
    (all_values_by_metric : List (String × List ℚ))
    (h : Visualization.columnCardinality metric_id cells < 2 ∨
      Visualization.columnUnit metric_id cells = none) :
    Visualization.analyze_column_async use_llm1 spec1 metric_id metric_label
        cells all_metrics all_values_by_metric
      = Visualization.analyze_column_async use_llm2 spec2 metric_id metric_label
          cells all_metrics all_values_by_metric ∧
    (Visualization.analyze_column_async use_llm1 spec1 metric_id metric_label
        cells all_metrics all_values_by_metric).visualizable = false := by
  have hcond : (decide (Visualization.columnCardinality metric_id cells < 2) ||
      (Visualization.columnUnit metric_id cells).isNone) = true := by
    rcases h with h | h
    · simp [h]
    · simp [h]
  constructor
  · simp only [Visualization.analyze_column_async, hcond, if_true]
  · simp only [Visualization.analyze_column_async, hcond, if_true,
      Visualization._fallback_analyze_column]
    rcases h with h | h
    · simp [Nat.not_le.mpr h]
    · simp [h]

/-- witness for C7 at a concrete input: a single-value column is analyzed
identically with and without an LLM response, and is not visualizable. -/
theorem C7_insufficient_column_skips_llm_witness :
    Visualization.analyze_column_async true (some exSpecNoRender) "m1" "Revenue"
        exColumn1 [] []
      = Visualization.analyze_column_async false none "m1" "Revenue"
          exColumn1 [] [] ∧
    (Visualization.analyze_column_async true (some exSpecNoRender) "m1" "Revenue"
        exColumn1 [] []).visualizable = false :=
  C7_insufficient_column_skips_llm true false (some exSpecNoRender) none
    "m1" "Revenue" exColumn1 [] [] (Or.inl (by decide!))

/-! ### C1 infrastructure -/

theorem byIndex_mem {raw : List Chat.RawCitation} {s : String} {c : Chat.RawCitation}
    (h : Chat.byIndex raw s = some c) : c ∈ raw :=
  (List.mem_filter.mp (getLast?_mem h)).1

/-- for a recognized `type`, the typed construction succeeds and records
the requested index. -/
theorem buildCitation_index {c : Chat.RawCitation}
    (h : c.type = some "cell" ∨ c.type = some "document") (i : ℕ) :
    ∃ cit, Chat.buildCitation c i = some cit ∧ cit.index = i := by
  rcases h with h | h
  · exact ⟨Chat.Citation.cell i (c.doc_id.getD "") (c.doc_name.getD "Unknown")
      (c.metric_id.getD "") (c.metric_label.getD "Unknown") (c.value.getD ""),
      by simp [Chat.buildCitation, h], rfl⟩
  · have hne : (c.type == some "cell") = false := by rw [h]; rfl
    exact ⟨Chat.Citation.document i (c.doc_id.getD "") (c.doc_name.getD "Unknown")
      c.«section» c.page (c.excerpt.getD ""),
      by simp [Chat.buildCitation, hne, h], rfl⟩

/-- Model of `_parse_citations` under recognized types: sequential indices from `i`. -/
theorem parseAux_indices {raw : List Chat.RawCitation}
    (hrec : ∀ c ∈ raw, c.type = some "cell" ∨ c.type = some "document") :
    ∀ i, (Chat.parseAux raw i).map Chat.Citation.index = List.range' i raw.length := by
  induction raw with
  | nil => intro i; simp [Chat.parseAux]
  | cons c cs ih =>
    intro i
    obtain ⟨cit, hbuild, hidx⟩ :=
      buildCitation_index (hrec c (List.mem_cons_self c cs)) i
    rw [Chat.parseAux, hbuild]
    simp only [List.map_cons, hidx, List.length_cons]
    rw [ih (fun c hc => hrec c (List.mem_cons_of_mem _ hc)) (i + 1)]
    rfl

/-- the renumbering loop under recognized types and enough citations for
the positional fallback: every reference resolves and is assigned the
next sequential index. -/
theorem normLoop_indices {raw : List Chat.RawCitation}
    (hrec : ∀ c ∈ raw, c.type = some "cell" ∨ c.type = some "document") :
    ∀ (refs : List String) (k : ℕ), 1 ≤ k → k + refs.length ≤ raw.length + 1 →
      (Chat.normLoop raw refs k).2.map Chat.Citation.index
        = List.range' k refs.length := by
  intro refs
  induction refs with
  | nil => intro k _ _; simp [Chat.normLoop]
  | cons r rs ih =>
    intro k hk hlen
    have hklen : k ≤ raw.length := by
      simp only [List.length_cons] at hlen; omega
    have hdata : ∃ c, (match Chat.byIndex raw r with
        | some c => some c
        | none =>
          if raw.length ≥ k then raw.get? (k - 1) else none) = some c ∧ c ∈ raw := by
      cases hby : Chat.byIndex raw r with
      | some c => exact ⟨c, rfl, byIndex_mem hby⟩
      | none =>
        have hlt : k - 1 < raw.length := by omega
        refine ⟨raw.get ⟨k - 1, hlt⟩, ?_, List.get_mem raw (k - 1) hlt⟩
        simp [hklen, List.get?_eq_get hlt]
    obtain ⟨c, hc, hcm⟩ := hdata
    obtain ⟨cit, hbuild, hidx⟩ := buildCitation_index (hrec c hcm) k
    rw [Chat.normLoop, hc]
    simp only [hbuild, List.singleton_append, List.map_cons, hidx, List.length_cons]
    rw [ih (k + 1) (by omega) (by simp only [List.length_cons] at hlen; omega)]
    rfl

/-- C1 amended: whenever every enriched citation has a recognized `type`
and at least as many citations are provided as there are distinct `[n]`
markers in the cleaned text, `_normalize_citations` returns citations
whose indices are exactly `1, 2, ..., len` in first-seen marker order —
one per distinct marker, or one per input citation in input order under
the no-marker / no-citation sequential fallback. -/
theorem C1_normalized_indices (content : String) (raw : List Chat.RawCitation)
    (hrec : ∀ c ∈ raw, c.type = some "cell" ∨ c.type = some "document")
    (hlen : (Py.firstDedup (Chat.findRefs (Chat._clean_citation_leakage content))).length
      ≤ raw.length) :
    ((Chat._normalize_citations content raw).2.map Chat.Citation.index
      = List.range' 1 (Chat._normalize_citations content raw).2.length) ∧
    ((Chat._normalize_citations content raw).2.length =
      if (Py.firstDedup (Chat.findRefs (Chat._clean_citation_leakage content))).isEmpty
          || raw.isEmpty
      then raw.length
      else (Py.firstDedup (Chat.findRefs (Chat._clean_citation_leakage content))).length) := by
  by_cases hc : (Py.firstDedup (Chat.findRefs (Chat._clean_citation_leakage content))).isEmpty
      || raw.isEmpty
  · have hres : (Chat._normalize_citations content raw).2 = Chat._parse_citations raw := by
      rw [Chat._normalize_citations]
      simp only [hc, if_true]
    have hmap := parseAux_indices hrec 1
    have hlenp : (Chat.parseAux raw 1).length = raw.length := by
      have := congrArg List.length hmap
      simpa using this
    rw [hres]
    rw [Chat._parse_citations]
    rw [hlenp, if_pos hc]
    exact ⟨hmap, rfl⟩
  · have hres : (Chat._normalize_citations content raw).2 =
        (Chat.normLoop raw
          (Py.firstDedup (Chat.findRefs (Chat._clean_citation_leakage content))) 1).2 := by
      rw [Chat._normalize_citations]
      simp only [Bool.not_eq_true] at hc
      simp only [hc]
      rfl
    have hmap := normLoop_indices hrec
      (Py.firstDedup (Chat.findRefs (Chat._clean_citation_leakage content))) 1
      (le_refl 1) (by omega)
    have hlenp := congrArg List.length hmap
    simp only [List.length_map, List.length_range'] at hlenp
    rw [hres, hlenp, if_neg hc]
    exact ⟨hmap, rfl⟩

/-- witness for C1 at a concrete input: canonical text `"Revenue grew [1]
last year"` with one recognized cell citation yields the single index 1. -/
theorem C1_normalized_indices_witness :
    ((Chat._normalize_citations "Revenue grew [1] last year" [rcIndex1]).2.map
        Chat.Citation.index
      = List.range' 1
          (Chat._normalize_citations "Revenue grew [1] last year" [rcIndex1]).2.length) ∧
    ((Chat._normalize_citations "Revenue grew [1] last year" [rcIndex1]).2.length =
      if (Py.firstDedup (Chat.findRefs (Chat._clean_citation_leakage
            "Revenue grew [1] last year"))).isEmpty
          || ([rcIndex1] : List Chat.RawCitation).isEmpty
      then ([rcIndex1] : List Chat.RawCitation).length
      else (Py.firstDedup (Chat.findRefs (Chat._clean_citation_leakage
            "Revenue grew [1] last year"))).length) :=
  C1_normalized_indices "Revenue grew [1] last year" [rcIndex1]
    (by
      intro c hc
      rw [List.mem_singleton] at hc
      subst hc
      exact Or.inl rfl)
    (by decide!)

/-! ### C3 infrastructure -/

theorem stripL_eq_self {l : List Char} (h : ∀ c ∈ l, Py.isSpace c = false) :
    Py.stripL l = l := by
  have h1 : l.dropWhile Py.isSpace = l := by
    cases l with
    | nil => rfl
    | cons c t =>
      rw [List.dropWhile_cons, h c (List.mem_cons_self c t)]
      simp
  have h2 : l.reverse.dropWhile Py.isSpace = l.reverse := by
    cases hrev : l.reverse with
    | nil => rfl
    | cons c t =>
      have hc : c ∈ l := by
        rw [← List.mem_reverse, hrev]
        exact List.mem_cons_self c t
      rw [List.dropWhile_cons, h c hc]
      simp
  rw [Py.stripL, h1, h2, List.reverse_reverse]

theorem trySep_not_newline {c : Char} {t : List Char} (h : (c == '\n') = false) :
    DocumentRetriever.trySep (c :: t) = none := by
  rw [DocumentRetriever.trySep, h]
  simp

/-- scanning a newline-free block just moves it into the accumulator. -/
theorem splitParasF_scan (r : List Char) :
    ∀ (l1 cur : List Char) (fuel : ℕ),
      (∀ c ∈ l1, (c == '\n') = false) →
      DocumentRetriever.splitParasF (l1.length + fuel) cur (l1 ++ r)
        = DocumentRetriever.splitParasF fuel (l1.reverse ++ cur) r := by
  intro l1
  induction l1 with
  | nil => intro cur fuel h; simp
  | cons c t ih =>
    intro cur fuel h
    have hc : (c == '\n') = false := h c (List.mem_cons_self c t)
    have hlen : (c :: t).length + fuel = (t.length + fuel) + 1 := by
      rw [List.length_cons]; omega
    rw [hlen, List.cons_append, DocumentRetriever.splitParasF,
      trySep_not_newline hc,
      ih (c :: cur) fuel (fun x hx => h x (List.mem_cons_of_mem c hx))]
    simp

/-- characters of the 1990-character paragraph are all `'a'`. -/
theorem bigPara_no_space : ∀ c ∈ bigPara.data, Py.isSpace c = false := by
  intro c hc
  have : c = 'a' := List.eq_of_mem_replicate hc
  subst this
  rfl

theorem bigPara_no_newline : ∀ c ∈ bigPara.data, (c == '\n') = false := by
  intro c hc
  have : c = 'a' := List.eq_of_mem_replicate hc
  subst this
  rfl

/-- Model of `re.split(r'\n\s*\n', ...)` cuts `bigDoc.content` into exactly the
long paragraph and the header paragraph. -/
theorem bigDoc_paras :
    DocumentRetriever.splitParas bigDoc.content.data
      = [bigPara.data, "NEW SECTION".data] := by
  have hdata : bigDoc.content.data = bigPara.data ++ ("\n\nNEW SECTION").data := by
    rw [show bigDoc.content = bigPara ++ "\n\nNEW SECTION" from rfl,
      String.data_append]
  have hlen : bigDoc.content.data.length + 1 = bigPara.data.length + 14 := by
    rw [hdata, List.length_append,
      show ("\n\nNEW SECTION").data.length = 13 from rfl]
  rw [DocumentRetriever.splitParas, hlen, hdata,
    splitParasF_scan _ bigPara.data [] 14 bigPara_no_newline]
  rw [show ("\n\nNEW SECTION").data = '\n' :: '\n' :: ("NEW SECTION").data from rfl]
  rw [DocumentRetriever.splitParasF]
  rw [show DocumentRetriever.trySep ('\n' :: '\n' :: ("NEW SECTION").data)
      = some ("NEW SECTION").data from by decide!]
  show (bigPara.data.reverse ++ []).reverse
      :: DocumentRetriever.splitParasF 13 [] ("NEW SECTION").data
    = [bigPara.data, ("NEW SECTION").data]
  rw [show DocumentRetriever.splitParasF 13 [] ("NEW SECTION").data
      = [("NEW SECTION").data] from by decide!]
  simp only [List.append_nil, List.reverse_reverse]

/-- the long paragraph matches neither header alternative. -/
theorem bigPara_headerLabel : DocumentRetriever.headerLabel bigPara.data = none := by
  rw [DocumentRetriever.headerLabel]
  rw [stripL_eq_self bigPara_no_space]
  rw [show bigPara.data = 'a' :: List.replicate 1989 'a' from by
    rw [show bigPara.data = List.replicate 1990 'a' from rfl,
      show (1990 : ℕ) = 1989 + 1 from rfl, List.replicate_succ]]
  simp only [show ('a' == '#') = false from rfl,
    show DocumentRetriever.isUpper 'a' = false from rfl,
    Bool.false_and, Bool.false_eq_true, if_false]

theorem bigPara_updSection (sec : Option (List Char)) :
    DocumentRetriever.updSection sec bigPara.data = sec := by
  rw [DocumentRetriever.updSection, bigPara_headerLabel]

/-- C3 counterexample: chunking `bigDoc` (a 1990-character non-header
paragraph accumulated under section `none`, followed by the all-caps
header paragraph `"NEW SECTION"` that overflows the 2000-character
budget) flushes the buffer tagged `some "NEW SECTION"` — the section of
the *incoming* paragraph — although the section active while the buffer's
paragraphs were accumulated was `none` (the first paragraph is no header,
so `updSection` keeps `none` while it is buffered). -/
theorem C3_flush_section_counterexample :
    (DocumentRetriever._chunk_document bigDoc).map
        (fun c => (c.content, c.«section»))
      = [(bigPara, some "NEW SECTION"), ("NEW SECTION", some "NEW SECTION")] ∧
    DocumentRetriever.updSection none bigPara.data = none ∧
    DocumentRetriever.splitParas bigDoc.content.data
      = [bigPara.data, "NEW SECTION".data] := by
  refine ⟨?_, bigPara_updSection none, bigDoc_paras⟩
  rw [DocumentRetriever._chunk_document, bigDoc_paras]
  rw [DocumentRetriever.chunkAux]
  rw [show DocumentRetriever.updSection none bigPara.data = none from
    bigPara_updSection none]
  rw [if_neg (by
    rw [show bigPara.data = List.replicate 1990 'a' from rfl,
      List.length_replicate]
    decide)]
  rw [show DocumentRetriever.extendBuf [] bigPara.data = bigPara.data from rfl]
  rw [DocumentRetriever.chunkAux]
  rw [show DocumentRetriever.updSection none ("NEW SECTION").data
      = some (("NEW SECTION").data) from by decide!]
  rw [if_pos (by
    rw [show bigPara.data = List.replicate 1990 'a' from rfl,
      List.length_replicate]
    decide)]
  rw [if_neg (by
    rw [show bigPara.data = List.replicate 1990 'a' from rfl]
    simp [List.isEmpty_iff])]
  rw [stripL_eq_self bigPara_no_space]
  rw [show DocumentRetriever.chunkAux [] ("NEW SECTION").data
      (some (("NEW SECTION").data))
      = [(("NEW SECTION").data, some (("NEW SECTION").data))] from by decide!]
  rfl


theorem joinBuf_append_one (xs : List (List Char)) (p : List Char) :
    DocumentRetriever.joinBuf (xs ++ [p])
      = DocumentRetriever.extendBuf (DocumentRetriever.joinBuf xs) p := by
  simp [DocumentRetriever.joinBuf, List.foldl_append]

theorem chunkAux_partition :
    ∀ (paras bufParas : List (List Char)) (sec : Option (List Char)),
      ∃ segs : List (List (List Char)), segs.join = bufParas ++ paras ∧
        (DocumentRetriever.chunkAux paras (DocumentRetriever.joinBuf bufParas)
            sec).map Prod.fst
          = ((segs.map DocumentRetriever.joinBuf).filter
              (fun b => !b.isEmpty)).map Py.stripL := by
  intro paras
  induction paras with
  | nil =>
    intro bufParas sec
    refine ⟨[bufParas], by simp, ?_⟩
    simp only [DocumentRetriever.chunkAux]
    by_cases hb : (DocumentRetriever.joinBuf bufParas).isEmpty
    · simp [hb]
    · simp only [Bool.not_eq_true] at hb
      simp [hb]
  | cons para rest ih =>
    intro bufParas sec
    by_cases hover : (DocumentRetriever.joinBuf bufParas).length + para.length >
        DocumentRetriever.chunk_size
    · obtain ⟨segs', hjoin, heq⟩ := ih [para] (DocumentRetriever.updSection sec para)
      have hjp : DocumentRetriever.joinBuf [para] = para := by
        simp [DocumentRetriever.joinBuf, DocumentRetriever.extendBuf]
      rw [hjp] at heq
      refine ⟨bufParas :: segs', by simp [hjoin], ?_⟩
      simp only [DocumentRetriever.chunkAux, if_pos hover]
      rw [List.map_append, heq, List.map_cons, List.filter_cons]
      by_cases hb : (DocumentRetriever.joinBuf bufParas).isEmpty
      · simp [hb]
      · simp only [Bool.not_eq_true] at hb
        simp [hb]
    · obtain ⟨segs', hjoin, heq⟩ := ih (bufParas ++ [para])
        (DocumentRetriever.updSection sec para)
      refine ⟨segs', by simpa using hjoin, ?_⟩
      simp only [DocumentRetriever.chunkAux, if_neg hover]
      rw [← joinBuf_append_one]
      exact heq

theorem C3_chunk_flush_amended :
    (∀ (para : List Char) (rest : List (List Char)) (cur : List Char)
        (sec : Option (List Char)),
      cur.isEmpty = false →
      cur.length + para.length > DocumentRetriever.chunk_size →
      DocumentRetriever.chunkAux (para :: rest) cur sec
        = (Py.stripL cur, DocumentRetriever.updSection sec para)
            :: DocumentRetriever.chunkAux rest para
                (DocumentRetriever.updSection sec para)) ∧
    (∀ paras : List (List Char), ∃ segs : List (List (List Char)),
      segs.join = paras ∧
      (DocumentRetriever.chunkAux paras [] none).map Prod.fst
        = ((segs.map DocumentRetriever.joinBuf).filter
            (fun b => !b.isEmpty)).map Py.stripL) := by
  constructor
  · intro para rest cur sec hne hover
    simp only [DocumentRetriever.chunkAux, if_pos hover, hne,
      Bool.false_eq_true, if_false, List.singleton_append]
  · intro paras
    have h := chunkAux_partition paras [] none
    simpa [DocumentRetriever.joinBuf] using h

theorem C3_chunk_flush_amended_witness :
    (DocumentRetriever.chunkAux ["NEW SECTION".data] (List.replicate 2001 'a') none
      = (Py.stripL (List.replicate 2001 'a'),
         DocumentRetriever.updSection none ("NEW SECTION").data)
          :: DocumentRetriever.chunkAux [] ("NEW SECTION").data
              (DocumentRetriever.updSection none ("NEW SECTION").data)) ∧
    (∃ segs : List (List (List Char)),
      segs.join = [("ab").data] ∧
      (DocumentRetriever.chunkAux [("ab").data] [] none).map Prod.fst
        = ((segs.map DocumentRetriever.joinBuf).filter
            (fun b => !b.isEmpty)).map Py.stripL) :=
  ⟨C3_chunk_flush_amended.1 ("NEW SECTION").data [] (List.replicate 2001 'a') none
      (by simp [List.isEmpty_iff])
      (by rw [List.length_replicate]; decide),
   C3_chunk_flush_amended.2 [("ab").data]⟩
